import Mathlib

/-!
Verification of the map scale-bar estimator of `src/screens/WelcomeScreen.tsx`
(repository Ciudamos1.2).

The estimator derives, from the current map region, a "nice" distance in
meters and a bar length in pixels:

* `metersPerDegreeLon`/`viewportMeters`/`metersPerPixel` embed lines 216-221
  (real-valued, since the source uses `Math.cos`);
* `niceScales`, `scaleLoop`, `scaleMeters` embed the selection loop of lines
  223-229 (rational-valued, hence executable);
* `scalePx` embeds the clamp of line 230;
* `toFixed1`, `scaleTxt` embed the label of line 322.
-/

namespace Ciudamos

/-- Meters spanned by one degree of longitude at the given latitude (degrees).
Source: `const metersPerDegreeLon = Math.cos((region.latitude * Math.PI) / 180) * 111320`. -/
noncomputable def metersPerDegreeLon (latitude : ℝ) : ℝ :=
  Real.cos (latitude * Real.pi / 180) * 111320

/-- Width of the viewport in meters.
Source: `const viewportMeters = metersPerDegreeLon * region.longitudeDelta`. -/
noncomputable def viewportMeters (latitude longitudeDelta : ℝ) : ℝ :=
  metersPerDegreeLon latitude * longitudeDelta

/-- Meters represented by one pixel.
Source: `return viewportMeters / SCREEN_W`. -/
noncomputable def metersPerPixel (latitude longitudeDelta screenW : ℝ) : ℝ :=
  viewportMeters latitude longitudeDelta / screenW

/-- The fixed candidate list of "nice" scale distances, in meters.
Source: `const niceScales = [10, 20, 50, 100, 200, 500, 1000, 2000]`. -/
def niceScales : List ℚ := [10, 20, 50, 100, 200, 500, 1000, 2000]

/-- The selection loop over the candidates, with `acc` holding the current
value of the mutable `scaleMeters` variable.  Source, lines 225-229:
`for (const m of niceScales) { const px = m / metersPerPixel;`
`  if (px >= 60 && px <= 160) { scaleMeters = m; break; }`
`  if (px < 60) scaleMeters = m; }`. -/
def scaleLoop (mpp : ℚ) : List ℚ → ℚ → ℚ
  | [], acc => acc
  | m :: rest, acc =>
    let px := m / mpp
    if 60 ≤ px ∧ px ≤ 160 then m
    else if px < 60 then scaleLoop mpp rest m
    else scaleLoop mpp rest acc

/-- The selected scale distance in meters, starting from `niceScales[0]`.
Source: `let scaleMeters = niceScales[0]` followed by the loop. -/
def scaleMeters (mpp : ℚ) : ℚ :=
  scaleLoop mpp niceScales (niceScales.headD 0)

/-- The bar length in pixels.
Source: `const scalePx = Math.max(40, Math.min(200, scaleMeters / metersPerPixel))`. -/
def scalePx (mpp : ℚ) : ℚ :=
  max 40 (min 200 (scaleMeters mpp / mpp))

/-- JavaScript `Number.prototype.toFixed(1)` on a nonnegative number whose
value times ten is an integer (the only inputs the label ever produces). -/
def toFixed1 (q : ℚ) : String :=
  let n : ℤ := round (q * 10)
  toString (n / 10) ++ "." ++ toString (n % 10)

/-- The scale label.  Source, line 322:
`scaleMeters >= 1000 ? ((scaleMeters/1000).toFixed(1)) km : (scaleMeters) m`. -/
def scaleTxt (m : ℚ) : String :=
  if 1000 ≤ m then toFixed1 (m / 1000) ++ " km" else toString m.num ++ " m"

/-- The whole estimator on a given meters-per-pixel value: selected distance,
bar pixel length, and label. -/
def estimator (mpp : ℚ) : ℚ × ℚ × String :=
  (scaleMeters mpp, scalePx mpp, scaleTxt (scaleMeters mpp))

lemma scaleLoop_eq_acc_or_mem (mpp : ℚ) :
    ∀ (l : List ℚ) (acc : ℚ), scaleLoop mpp l acc = acc ∨ scaleLoop mpp l acc ∈ l := by
  intro l
  induction l with
  | nil => intro acc; left; rfl
  | cons a t ih =>
    intro acc
    simp only [scaleLoop]
    split
    · right; exact List.mem_cons_self a t
    · split
      · rcases ih a with h | h
        · right; rw [h]; exact List.mem_cons_self a t
        · right; exact List.mem_cons_of_mem a h
      · rcases ih acc with h | h
        · left; exact h
        · right; exact List.mem_cons_of_mem a h

lemma scaleLoop_first (mpp m : ℚ) (hm : 60 ≤ m / mpp ∧ m / mpp ≤ 160) :
    ∀ (l : List ℚ) (acc : ℚ), l.Sorted (· < ·) → m ∈ l →
      (∀ x ∈ l, x < m → ¬(60 ≤ x / mpp ∧ x / mpp ≤ 160)) →
      scaleLoop mpp l acc = m := by
  intro l
  induction l with
  | nil => intro acc _ hmem _; exact absurd hmem (List.not_mem_nil m)
  | cons a t ih =>
    intro acc hsorted hmem hfirst
    rcases List.mem_cons.mp hmem with rfl | hmt
    · simp only [scaleLoop]
      rw [if_pos hm]
    · have hat : a < m := (List.sorted_cons.mp hsorted).1 m hmt
      have hna : ¬(60 ≤ a / mpp ∧ a / mpp ≤ 160) :=
        hfirst a (List.mem_cons_self a t) hat
      have htail : ∀ x ∈ t, x < m → ¬(60 ≤ x / mpp ∧ x / mpp ≤ 160) :=
        fun x hx => hfirst x (List.mem_cons_of_mem a hx)
      have hts : t.Sorted (· < ·) := (List.sorted_cons.mp hsorted).2
      simp only [scaleLoop]
      rw [if_neg hna]
      split
      · exact ih a hts hmt htail
      · exact ih acc hts hmt htail

lemma scaleLoop_all_lt (mpp : ℚ) :
    ∀ (l : List ℚ) (acc : ℚ), (∀ x ∈ l, x / mpp < 60) →
      scaleLoop mpp l acc = l.getLastD acc := by
  intro l
  induction l with
  | nil => intro acc _; rfl
  | cons a t ih =>
    intro acc hlt
    have ha : a / mpp < 60 := hlt a (List.mem_cons_self a t)
    have hna : ¬(60 ≤ a / mpp ∧ a / mpp ≤ 160) := by
      rintro ⟨h60, _⟩; linarith
    simp only [scaleLoop]
    rw [if_neg hna, if_pos ha, List.getLastD_cons]
    exact ih a (fun x hx => hlt x (List.mem_cons_of_mem a hx))

lemma scaleLoop_all_gt (mpp : ℚ) :
    ∀ (l : List ℚ) (acc : ℚ), (∀ x ∈ l, 160 < x / mpp) →
      scaleLoop mpp l acc = acc := by
  intro l
  induction l with
  | nil => intro acc _; rfl
  | cons a t ih =>
    intro acc hgt
    have ha : 160 < a / mpp := hgt a (List.mem_cons_self a t)
    have hna : ¬(60 ≤ a / mpp ∧ a / mpp ≤ 160) := by
      rintro ⟨_, h160⟩; linarith
    have hna2 : ¬(a / mpp < 60) := by linarith
    simp only [scaleLoop]
    rw [if_neg hna, if_neg hna2]
    exact ih acc (fun x hx => hgt x (List.mem_cons_of_mem a hx))

lemma scaleLoop_inRange_of_exists (mpp : ℚ) :
    ∀ (l : List ℚ) (acc : ℚ),
      (∃ m ∈ l, 60 ≤ m / mpp ∧ m / mpp ≤ 160) →
      60 ≤ scaleLoop mpp l acc / mpp ∧ scaleLoop mpp l acc / mpp ≤ 160 := by
  intro l
  induction l with
  | nil => intro acc h; exact absurd h (by simp)
  | cons a t ih =>
    intro acc h
    by_cases ha : 60 ≤ a / mpp ∧ a / mpp ≤ 160
    · simp only [scaleLoop]
      rw [if_pos ha]
      exact ha
    · have ht : ∃ m ∈ t, 60 ≤ m / mpp ∧ m / mpp ≤ 160 := by
        rcases h with ⟨m, hmem, hm⟩
        rcases List.mem_cons.mp hmem with rfl | hmt
        · exact absurd hm ha
        · exact ⟨m, hmt, hm⟩
      simp only [scaleLoop]
      rw [if_neg ha]
      split
      · exact ih a ht
      · exact ih acc ht

lemma exists_nice_in_range (mpp : ℚ) (hmpp : 0 < mpp)
    (h1 : 10 / mpp ≤ 160) (h2 : 60 ≤ 2000 / mpp) :
    ∃ m ∈ niceScales, 60 ≤ m / mpp ∧ m / mpp ≤ 160 := by
  have hlo : 10 ≤ 160 * mpp := by
    have := (div_le_iff₀ hmpp).mp h1; linarith
  have hhi : 60 * mpp ≤ 2000 := by
    have := (le_div_iff₀ hmpp).mp h2; linarith
  have hmem : ∀ m : ℚ, m ∈ niceScales ↔
      m = 10 ∨ m = 20 ∨ m = 50 ∨ m = 100 ∨ m = 200 ∨ m = 500 ∨ m = 1000 ∨ m = 2000 := by
    intro m; simp [niceScales]
  rcases le_or_lt mpp (1/6) with h | h
  · exact ⟨10, (hmem 10).mpr (by tauto),
      (le_div_iff₀ hmpp).mpr (by linarith), h1⟩
  rcases le_or_lt mpp (1/3) with h' | h'
  · exact ⟨20, (hmem 20).mpr (by tauto),
      (le_div_iff₀ hmpp).mpr (by linarith), (div_le_iff₀ hmpp).mpr (by linarith)⟩
  rcases le_or_lt mpp (5/6) with h'' | h''
  · exact ⟨50, (hmem 50).mpr (by tauto),
      (le_div_iff₀ hmpp).mpr (by linarith), (div_le_iff₀ hmpp).mpr (by linarith)⟩
  rcases le_or_lt mpp (5/3) with h3 | h3
  · exact ⟨100, (hmem 100).mpr (by tauto),
      (le_div_iff₀ hmpp).mpr (by linarith), (div_le_iff₀ hmpp).mpr (by linarith)⟩
  rcases le_or_lt mpp (10/3) with h4 | h4
  · exact ⟨200, (hmem 200).mpr (by tauto),
      (le_div_iff₀ hmpp).mpr (by linarith), (div_le_iff₀ hmpp).mpr (by linarith)⟩
  rcases le_or_lt mpp (25/3) with h5 | h5
  · exact ⟨500, (hmem 500).mpr (by tauto),
      (le_div_iff₀ hmpp).mpr (by linarith), (div_le_iff₀ hmpp).mpr (by linarith)⟩
  rcases le_or_lt mpp (50/3) with h6 | h6
  · exact ⟨1000, (hmem 1000).mpr (by tauto),
      (le_div_iff₀ hmpp).mpr (by linarith), (div_le_iff₀ hmpp).mpr (by linarith)⟩
  · exact ⟨2000, (hmem 2000).mpr (by tauto),
      h2, (div_le_iff₀ hmpp).mpr (by linarith)⟩

/-- Claim C1: for every positive metersPerPixel, the selection scans the fixed
ascending candidate list, computing each candidate's pixel length as
candidate / metersPerPixel, and returns the first candidate whose pixel length
lies in the inclusive range [60, 160] whenever such a candidate exists. -/
theorem scaleMeters_first_in_range (mpp : ℚ) (hmpp : 0 < mpp)
    (m : ℚ) (hmem : m ∈ niceScales)
    (hm : 60 ≤ m / mpp ∧ m / mpp ≤ 160)
    (hfirst : ∀ x ∈ niceScales, x < m → ¬(60 ≤ x / mpp ∧ x / mpp ≤ 160)) :
    scaleMeters mpp = m := by
  unfold scaleMeters
  exact scaleLoop_first mpp m hm niceScales _ (by decide) hmem hfirst

/-- Witness for C1: at metersPerPixel = 1, the pixel lengths 10, 20 and 50 are
below 60 and 100 is the first candidate in [60, 160], so 100 is selected. -/
theorem scaleMeters_first_in_range_witness : scaleMeters 1 = 100 :=
  scaleMeters_first_in_range 1 one_pos 100 (by decide) (by norm_num)
    (by norm_num [niceScales])

/-- Counterexample to claim C2 as stated: at metersPerPixel = 100 every
candidate's pixel length is below 60 (the list is exhausted below 60), yet the
code selects the largest candidate 2000, not the smallest candidate 10 that the
claim predicts for this case. -/
theorem scaleMeters_fallback_counterexample :
    (0:ℚ) < 100 ∧
      (∀ m ∈ niceScales, ¬(60 ≤ m / (100:ℚ) ∧ m / (100:ℚ) ≤ 160)) ∧
      (∀ m ∈ niceScales, m / (100:ℚ) < 60) ∧
      scaleMeters 100 = 2000 ∧ (2000:ℚ) ≠ 10 := by
  refine ⟨by norm_num, by norm_num [niceScales], by norm_num [niceScales],
    ?_, by norm_num⟩
  norm_num [scaleMeters, scaleLoop, niceScales]

/-- Claim C2 (amended): for every positive metersPerPixel with no candidate's
pixel length in [60, 160], either every pixel length is below 60 and the
LARGEST candidate 2000 is selected, or every pixel length exceeds 160 and the
smallest candidate 10 (the initial value) is selected. -/
theorem scaleMeters_fallback (mpp : ℚ) (hmpp : 0 < mpp)
    (hno : ∀ m ∈ niceScales, ¬(60 ≤ m / mpp ∧ m / mpp ≤ 160)) :
    (scaleMeters mpp = 2000 ∧ (2000:ℚ) / mpp < 60) ∨
      (scaleMeters mpp = 10 ∧ 160 < (10:ℚ) / mpp) := by
  by_cases h2000 : (2000:ℚ) / mpp < 60
  · left
    refine ⟨?_, h2000⟩
    unfold scaleMeters
    rw [scaleLoop_all_lt]
    · decide
    · intro x hx
      have hx2000 : x ≤ 2000 := by fin_cases hx <;> norm_num
      have h60 : 2000 < 60 * mpp := by
        have := (div_lt_iff₀ hmpp).mp h2000; linarith
      exact (div_lt_iff₀ hmpp).mpr (by linarith)
  · right
    have h2000' : 160 < 2000 / mpp := by
      have := hno 2000 (by decide)
      rcases not_and_or.mp this with hc | hc
      · exact absurd (le_of_not_lt h2000) hc
      · exact lt_of_not_le hc
    have h10 : 160 < 10 / mpp := by
      by_contra hle
      push_neg at hle
      obtain ⟨m, hmem, hr⟩ :=
        exists_nice_in_range mpp hmpp hle (by linarith)
      exact hno m hmem hr
    refine ⟨?_, h10⟩
    unfold scaleMeters
    rw [scaleLoop_all_gt]
    · decide
    · intro x hx
      have hx10 : 10 ≤ x := by fin_cases hx <;> norm_num
      have h160 : 160 * mpp < 10 := (lt_div_iff₀ hmpp).mp h10
      exact (lt_div_iff₀ hmpp).mpr (by linarith)

/-- Witness for C2 (amended): at metersPerPixel = 100 no candidate is in range,
and the left branch holds with selected distance 2000. -/
theorem scaleMeters_fallback_witness :
    (scaleMeters 100 = 2000 ∧ (2000:ℚ) / 100 < 60) ∨
      (scaleMeters 100 = 10 ∧ 160 < (10:ℚ) / 100) :=
  scaleMeters_fallback 100 (by norm_num) (by norm_num [niceScales])

/-- Claim C3: meters-per-degree-longitude equals cos(φ·π/180) × 111320,
metersPerPixel is that value times the longitude span divided by the pixel
width, and meters-per-degree-longitude strictly decreases in |φ| on
latitudes in [-90, 90]. -/
theorem metersPerDegreeLon_formula_and_mono :
    (∀ lat span w : ℝ, 0 < span → 0 < w →
        metersPerDegreeLon lat = Real.cos (lat * Real.pi / 180) * 111320 ∧
        metersPerPixel lat span w = metersPerDegreeLon lat * span / w) ∧
    (∀ φ1 φ2 : ℝ, -90 ≤ φ1 → φ1 ≤ 90 → -90 ≤ φ2 → φ2 ≤ 90 → |φ1| < |φ2| →
        metersPerDegreeLon φ2 < metersPerDegreeLon φ1) := by
  constructor
  · intro lat span w _ _
    exact ⟨rfl, rfl⟩
  · intro φ1 φ2 h1l h1r h2l h2r habs
    unfold metersPerDegreeLon
    have hpi : (0:ℝ) < Real.pi := Real.pi_pos
    have c1 : Real.cos (φ1 * Real.pi / 180) = Real.cos (|φ1| * Real.pi / 180) := by
      rw [← Real.cos_abs, abs_div, abs_mul, abs_of_pos hpi]
      norm_num
    have c2 : Real.cos (φ2 * Real.pi / 180) = Real.cos (|φ2| * Real.pi / 180) := by
      rw [← Real.cos_abs, abs_div, abs_mul, abs_of_pos hpi]
      norm_num
    rw [c1, c2]
    have key : Real.cos (|φ2| * Real.pi / 180) < Real.cos (|φ1| * Real.pi / 180) := by
      apply Real.cos_lt_cos_of_nonneg_of_le_pi
      · positivity
      · have h90 : |φ2| ≤ 90 := abs_le.mpr ⟨h2l, h2r⟩
        have : |φ2| * Real.pi / 180 ≤ 90 * Real.pi / 180 := by gcongr
        nlinarith [Real.pi_pos]
      · gcongr
    nlinarith [key]

/-- Witness for C3: the meters-per-degree value at latitude 90 is strictly
smaller than at latitude 0. -/
theorem metersPerDegreeLon_mono_witness :
    metersPerDegreeLon 90 < metersPerDegreeLon 0 :=
  metersPerDegreeLon_formula_and_mono.2 0 90 (by norm_num) (by norm_num)
    (by norm_num) (by norm_num) (by simp)

/-- Claim C4: for every positive metersPerPixel, the clamped bar pixel length
lies within [40, 200] inclusive. -/
theorem scalePx_in_bounds (mpp : ℚ) (hmpp : 0 < mpp) :
    40 ≤ scalePx mpp ∧ scalePx mpp ≤ 200 := by
  unfold scalePx
  exact ⟨le_max_left 40 _, max_le (by norm_num) (min_le_left 200 _)⟩

/-- Witness for C4 at metersPerPixel = 1. -/
theorem scalePx_in_bounds_witness : 40 ≤ scalePx 1 ∧ scalePx 1 ≤ 200 :=
  scalePx_in_bounds 1 (by norm_num)

/-- Claim C5: for every positive metersPerPixel, the selected distance is a
member of the fixed candidate set {10, 20, 50, 100, 200, 500, 1000, 2000}. -/
theorem scaleMeters_mem_niceScales (mpp : ℚ) (hmpp : 0 < mpp) :
    scaleMeters mpp ∈ niceScales := by
  unfold scaleMeters
  rcases scaleLoop_eq_acc_or_mem mpp niceScales (niceScales.headD 0) with h | h
  · rw [h]; decide
  · exact h

/-- Witness for C5 at metersPerPixel = 2. -/
theorem scaleMeters_mem_niceScales_witness : scaleMeters 2 ∈ niceScales :=
  scaleMeters_mem_niceScales 2 (by norm_num)

/-- Claim C6: at latitude 0, longitude span 0.01 and viewport width 1000 px the
viewport is exactly 1113.2 m wide, metersPerPixel is exactly 1.1132, the
selected distance is 100 m with pixel length within 1 of 90, and the label is
"100 m". -/
theorem concrete_equator_example :
    viewportMeters 0 0.01 = 1113.2 ∧
    metersPerPixel 0 0.01 1000 = ((1.1132 : ℚ) : ℝ) ∧
    scaleMeters (1.1132 : ℚ) = 100 ∧
    |(100 : ℚ) / 1.1132 - 90| < 1 ∧
    scaleTxt (scaleMeters (1.1132 : ℚ)) = "100 m" := by
  have hv : viewportMeters 0 0.01 = 1113.2 := by
    unfold viewportMeters metersPerDegreeLon
    rw [zero_mul, zero_div, Real.cos_zero]
    norm_num
  have hs : scaleMeters (1.1132 : ℚ) = 100 := by
    norm_num [scaleMeters, scaleLoop, niceScales]
  refine ⟨hv, ?_, hs, by norm_num [abs_lt], ?_⟩
  · unfold metersPerPixel
    rw [hv]
    norm_num
  · rw [hs]
    norm_num [scaleTxt]
    decide

/-- Claim C7: the label renders each candidate ≥ 1000 m as kilometers with
exactly one decimal place and each smaller candidate as whole meters; in
particular 1000 gives "1.0 km" and 500 gives "500 m". -/
theorem scaleTxt_formats :
    scaleTxt 10 = "10 m" ∧ scaleTxt 20 = "20 m" ∧ scaleTxt 50 = "50 m" ∧
    scaleTxt 100 = "100 m" ∧ scaleTxt 200 = "200 m" ∧ scaleTxt 500 = "500 m" ∧
    scaleTxt 1000 = "1.0 km" ∧ scaleTxt 2000 = "2.0 km" := by
  refine ⟨rfl, rfl, rfl, rfl, rfl, rfl, ?_, ?_⟩
  · norm_num [scaleTxt, toFixed1, round]
    decide
  · norm_num [scaleTxt, toFixed1, round]
    decide

/-- Claim C8: the estimator is deterministic; on identical latitude, span,
width and meters-per-pixel inputs, the derived meters-per-pixel and the whole
(distance, bar length, label) result coincide. -/
theorem estimator_deterministic
    (lat1 span1 w1 lat2 span2 w2 : ℝ) (mpp1 mpp2 : ℚ)
    (hlat : lat1 = lat2) (hspan : span1 = span2) (hw : w1 = w2)
    (hmpp : mpp1 = mpp2) :
    metersPerPixel lat1 span1 w1 = metersPerPixel lat2 span2 w2 ∧
      estimator mpp1 = estimator mpp2 := by
  subst hlat; subst hspan; subst hw; subst hmpp
  exact ⟨rfl, rfl⟩

/-- Witness for C8 at a concrete repeated input. -/
theorem estimator_deterministic_witness :
    metersPerPixel 0 0.01 1000 = metersPerPixel 0 0.01 1000 ∧
      estimator 1 = estimator 1 :=
  estimator_deterministic 0 0.01 1000 0 0.01 1000 1 1 rfl rfl rfl rfl

/-- Claim C9: the candidate steps (at most a factor 2.5 < 160/60 apart) cannot
skip the readable range: if the smallest candidate's pixel length is at most
160 and the largest candidate's is at least 60, some candidate's pixel length
lies in [60, 160] and the selected distance has pixel length in [60, 160]. -/
theorem readable_range_not_skipped (mpp : ℚ) (hmpp : 0 < mpp)
    (hlo : 10 / mpp ≤ 160) (hhi : 60 ≤ 2000 / mpp) :
    (∃ m ∈ niceScales, 60 ≤ m / mpp ∧ m / mpp ≤ 160) ∧
      (60 ≤ scaleMeters mpp / mpp ∧ scaleMeters mpp / mpp ≤ 160) := by
  have hex := exists_nice_in_range mpp hmpp hlo hhi
  exact ⟨hex, scaleLoop_inRange_of_exists mpp niceScales _ hex⟩

/-- Witness for C9 at metersPerPixel = 5: the selected distance is 500 with
pixel length 100. -/
theorem readable_range_not_skipped_witness :
    (∃ m ∈ niceScales, 60 ≤ m / (5:ℚ) ∧ m / (5:ℚ) ≤ 160) ∧
      (60 ≤ scaleMeters 5 / 5 ∧ scaleMeters 5 / 5 ≤ 160) :=
  readable_range_not_skipped 5 (by norm_num) (by norm_num) (by norm_num)

/-- Claim C10: whenever the selected distance's true pixel length lies in
[60, 160], the clamp to [40, 200] is the identity and the bar length equals
the selected distance divided by metersPerPixel. -/
theorem scalePx_eq_of_in_range (mpp : ℚ) (hmpp : 0 < mpp)
    (h60 : 60 ≤ scaleMeters mpp / mpp) (h160 : scaleMeters mpp / mpp ≤ 160) :
    scalePx mpp = scaleMeters mpp / mpp := by
  unfold scalePx
  rw [min_eq_right (by linarith), max_eq_right (by linarith)]

/-- Witness for C10 at metersPerPixel = 1. -/
theorem scalePx_eq_of_in_range_witness : scalePx 1 = scaleMeters 1 / 1 :=
  scalePx_eq_of_in_range 1 (by norm_num)
    (by norm_num [scaleMeters, scaleLoop, niceScales])
    (by norm_num [scaleMeters, scaleLoop, niceScales])

end Ciudamos
